import Mathlib

/-!
Verification of the polymorphic decode/encode layer of the go-switchbot
client library (package `switchbot`).

The Go source is embedded shallowly:

* JSON wire values are modelled by the inductive `Json` below.  JSON
  numbers are modelled as (unbounded) integers: every claim under
  consideration concerns integer-valued numbers only, and Go's machine
  integer range plays no role at the values the claims touch.
* Go's `encoding/json` unmarshalling into `int` and `string` targets is
  modelled by `jsonUnmarshalInt` / `jsonUnmarshalString`.  A documented
  and load-bearing detail of `encoding/json` is kept: unmarshalling the
  JSON value `null` into a non-pointer Go value is a no-op that leaves
  the destination unchanged and reports no error, so both primitives
  take the previous value of the destination as an argument and return
  it for `null`.  Error messages abstract Go's detailed
  `json.UnmarshalTypeError` texts into one fixed message per target
  type; no claim depends on those particular texts.
* Fallible Go functions returning `(T, error)` become `Except String T`.
* Field lookup in a JSON object follows `encoding/json`: when a key
  occurs several times the last occurrence wins, and keys of struct
  fields are matched by their json tags.  (Go additionally accepts a
  case-insensitive key match as a fallback; that fallback is not
  modelled and no claim depends on it.)
-/

namespace GoSwitchbot

/-- Model of a JSON wire value (numbers restricted to integers). -/
inductive Json where
  | null
  | bool (b : Bool)
  | num (n : Int)
  | str (s : String)
  | arr (elems : List Json)
  | obj (fields : List (String × Json))

/-- Look a key up in the field list of a JSON object.  As in
`encoding/json`, a later duplicate of a key overwrites an earlier
occurrence, so the last binding wins. -/
def lookupField (fields : List (String × Json)) (key : String) : Option Json :=
  fields.foldl (fun acc f => if f.1 = key then some f.2 else acc) none

/-- `json.Unmarshal(b, &iv)` for `iv : int` holding `prev` beforehand:
an integer token is stored, `null` is a no-op success leaving `prev`,
anything else is a type error. -/
def jsonUnmarshalInt (j : Json) (prev : Int) : Except String Int :=
  match j with
  | .num n => .ok n
  | .null => .ok prev
  | _ => .error "json: cannot unmarshal into Go value of type int"

/-- `json.Unmarshal(b, &sv)` for `sv : string` holding `prev`
beforehand: a string token is stored, `null` is a no-op success leaving
`prev`, anything else is a type error. -/
def jsonUnmarshalString (j : Json) (prev : String) : Except String String :=
  match j with
  | .str s => .ok s
  | .null => .ok prev
  | _ => .error "json: cannot unmarshal into Go value of type string"

/-- `BrightnessState` (device.go): either an integer brightness or an
ambient ("bright"/"dim") token, with `-1` used by the decoder as the
"no integer value" sentinel and `""` playing the same role for the
ambient string. -/
structure BrightnessState where
  intBrightness : Int
  ambientBrightness : String

/-- `(*BrightnessState).UnmarshalJSON` (device.go): set the sentinel
`-1`, try to unmarshal an int into a fresh `var iv int` (so `null`
leaves `iv = 0`); on failure try a string into a fresh `var sv string`;
if both fail wrap the second error. -/
def BrightnessState.UnmarshalJSON (b : Json) : Except String BrightnessState :=
  match jsonUnmarshalInt b 0 with
  | .ok iv => .ok { intBrightness := iv, ambientBrightness := "" }
  | .error _ =>
    match jsonUnmarshalString b "" with
    | .ok sv => .ok { intBrightness := -1, ambientBrightness := sv }
    | .error e => .error ("cannot unmarshal to both of int and string: " ++ e)

/-- `BrightnessState.Int` (device.go): the numeric accessor, failing on
a negative stored value. -/
def BrightnessState.Int (brightness : BrightnessState) : Except String Int :=
  if brightness.intBrightness < 0 then
    .error "integer brightness value is only available for color bulb devices"
  else
    .ok brightness.intBrightness

/-- `BrightnessState.AmbientBrightness` (device.go): the ambient
accessor, failing when the stored ambient token is empty. -/
def BrightnessState.AmbientBrightness (brightness : BrightnessState) : Except String String :=
  if brightness.ambientBrightness ≠ "" then
    .ok brightness.ambientBrightness
  else
    .error "ambient brightness value is only available for motion sensor, contact sensor devices"

/-- The treatment of the `"brightness"` field when a `DeviceStatus`
body is unmarshalled (device.go): an absent field is never handed to
`UnmarshalJSON` and the struct field keeps Go's zero value
`BrightnessState{0, ""}`; a present field goes through
`(*BrightnessState).UnmarshalJSON`. -/
def deviceStatusBrightnessField (field : Option Json) : Except String BrightnessState :=
  match field with
  | none => .ok { intBrightness := 0, ambientBrightness := "" }
  | some j => BrightnessState.UnmarshalJSON j

/-- `DeviceVersion` (a string-backed type). -/
def DeviceVersion := String

/-- `(*DeviceVersion).UnmarshalJSON`: try an int first (into a fresh
`var i int`, so `null` succeeds leaving `0`) and normalize it with
`strconv.Itoa`; otherwise try a string; otherwise propagate the string
attempt's error. -/
def DeviceVersion.UnmarshalJSON (b : Json) : Except String DeviceVersion :=
  match jsonUnmarshalInt b 0 with
  | .ok i => .ok (toString i)
  | .error _ =>
    match jsonUnmarshalString b "" with
    | .ok s => .ok s
    | .error e => .error e

/-- The error branch of `DeviceService.Status` (device.go) applied to
the decoded envelope's `statusCode`: `none` means the body is returned
with no error. -/
def statusResponseError (statusCode : Int) : Option String :=
  if statusCode = 190 then
    some "device internal error due to device states not synchronized with server"
  else if statusCode ≠ 100 then
    some ("unknown error " ++ toString statusCode ++ " from device list API")
  else
    none

/-- The `switch response.StatusCode` of `DeviceService.Command`
(device.go): six recognized failure codes, every other code (100
included) falls through to `return nil`. -/
def commandResponseError (statusCode : Int) : Option String :=
  if statusCode = 151 then some "device type error"
  else if statusCode = 152 then some "device not found"
  else if statusCode = 160 then some "command is not supported"
  else if statusCode = 161 then some "device is offline"
  else if statusCode = 171 then some "hub device is offline"
  else if statusCode = 190 then
    some "device internal error due to device states not synchronizeed with server or command format is invalid"
  else none

/-- The three-field wire envelope every `Command` renders into
(device.go `DeviceCommandRequest`). -/
structure DeviceCommandRequest where
  Command : String
  Parameter : String
  CommandType : String

/-- `SetPositionMode` is an integer-backed type; `DefaultMode = iota = 0`. -/
def DefaultMode : Int := 0

def PerformanceMode : Int := 1

def SilentMode : Int := 2

/-- The `switch mode` inside `SetPosition` (device.go): the
`PerformanceMode, SilentMode` cases render the mode's decimal form,
every other value renders `"ff"`. -/
def setPositionModeParameter (mode : Int) : String :=
  if mode = PerformanceMode ∨ mode = SilentMode then toString mode else "ff"

/-- `SetPosition` (device.go): clamp the position into `[0, 100]`, then
build the `"index,mode,position"` parameter. -/
def SetPosition (index : Int) (mode : Int) (position : Int) : DeviceCommandRequest :=
  let position := if position < 0 then 0 else if 100 < position then 100 else position
  { Command := "setPosition"
    Parameter := toString index ++ "," ++ setPositionModeParameter mode ++ "," ++ toString position
    CommandType := "command" }

/-- The clamping function named by the specification: values below `lo`
become `lo`, values above `hi` become `hi`. -/
def clamp (p lo hi : Int) : Int := max lo (min hi p)

/-- `time.Time`, reduced to what the `CreateKeyCommand` constructor
observes: whole seconds since Go's zero instant (January 1, year 1
UTC).  `IsZero` holds exactly for the zero instant and `Unix` shifts to
the Unix epoch. -/
structure GoTime where
  sec : Int

/-- `time.Time.IsZero`. -/
def GoTime.IsZero (t : GoTime) : Bool := t.sec == 0

/-- `time.Time.Unix`: seconds since the Unix epoch, 62135596800 seconds
after Go's zero instant. -/
def GoTime.Unix (t : GoTime) : Int := t.sec - 62135596800

/-- `PasscodeType` string constants (device.go). -/
def PermanentPasscode : String := "permanent"

def TimeLimitPasscode : String := "timeLimit"

def DisposablePasscode : String := "disposable"

def UrgentPasscode : String := "urgent"

/-- One character of `encoding/json`'s string encoder: `"` and `\` get
a backslash escape, `\n`/`\r`/`\t` their short forms, the remaining
control characters a lowercase `\u00xx` form, and (HTML escaping being
control characters a lowercase `\u00xx` form, the line separators
U+2028/U+2029 their `\u` forms, and (HTML escaping being on by default) `<`, `>`, `&` their `\u00..` forms; everything else is copied verbatim. -/
def goJSONEscapeChar (c : Char) : String :=
  if c = '"' then "\\\""
  else if c = '\\' then "\\\\"
  else if c = '<' then "\\u003c"
  else if c = '>' then "\\u003e"
  else if c = '&' then "\\u0026"
  else if c = '\n' then "\\n"
  else if c = '\r' then "\\r"
  else if c = '\t' then "\\t"
  else if c.toNat < 0x20 then
    "\\u00" ++ String.singleton ("0123456789abcdef".data.getD (c.toNat / 16) '0')
      ++ String.singleton ("0123456789abcdef".data.getD (c.toNat % 16) '0')
  else if c.toNat = 0x2028 then "\\u2028"
  else if c.toNat = 0x2029 then "\\u2029"
  else String.singleton c

/-- `encoding/json`'s quoted form of a Go string. -/
def goJSONQuote (s : String) : String :=
  "\"" ++ String.join (s.data.map goJSONEscapeChar) ++ "\""

/-- `createKeyCommandParameters` (device.go), with the two
`time.Time.Unix()` instants already taken. -/
structure createKeyCommandParameters where
  Name : String
  Typ : String
  Password : String
  Start : Int
  End : Int

/-- `json.Marshal` of `createKeyCommandParameters`: field order follows
the struct, string fields are quoted by the JSON encoder, the two
instants are rendered in decimal. -/
def jsonMarshalCreateKeyParameters (p : createKeyCommandParameters) : String :=
  "\x7b\"name\":" ++ goJSONQuote p.Name
    ++ ",\"type\":" ++ goJSONQuote p.Typ
    ++ ",\"password\":" ++ goJSONQuote p.Password
    ++ ",\"startTime\":" ++ toString p.Start
    ++ ",\"endTime\":" ++ toString p.End
    ++ "\x7d"

/-- `CreateKeyCommand` (device.go): reject a password whose length --
Go's `len`, i.e. its UTF-8 byte count -- is outside 6..12; reject a
time-limited or disposable passcode whose start or end instant is the
zero value; otherwise marshal the parameters and wrap them into the
`createKey` envelope.  (`json.Marshal` cannot fail on this struct, so
the marshal-error return of the source is unreachable.) -/
def CreateKeyCommand (name : String) (typ : String) (password : String)
    (start finish : GoTime) : Except String DeviceCommandRequest :=
  if password.utf8ByteSize < 6 ∨ 12 < password.utf8ByteSize then
    .error ("the length of password must be 6 to 12 but " ++ toString password.utf8ByteSize)
  else if (typ = TimeLimitPasscode ∨ typ = DisposablePasscode)
      ∧ (start.IsZero ∨ finish.IsZero) then
    .error ("when passcode type is " ++ typ
      ++ ", startTime and endTime is required but either/both is zero value")
  else
    .ok { Command := "createKey"
          Parameter := jsonMarshalCreateKeyParameters
            { Name := name, Typ := typ, Password := password
              Start := start.Unix, End := finish.Unix }
          CommandType := "command" }

/-! Webhook event shapes (webhook.go).  String-backed vendor types
(`PowerState`, `AmbientBrightness`, `CleanerWorkingStatus`,
`CleanerOnlineStatus`) are modelled as `String`; `int`/`int64` fields
as `Int`; the one `float64` field (`temperature`) as `Int`, the JSON
model carrying integer numbers only. -/

structure MotionSensorEventContext where
  DeviceType : String
  DeviceMac : String
  TimeOfSample : Int
  DetectionState : String

structure MotionSensorEvent where
  EventType : String
  EventVersion : String
  Context : MotionSensorEventContext

structure ContactSensorEventContext where
  DeviceType : String
  DeviceMac : String
  TimeOfSample : Int
  DetectionState : String
  DoorMode : String
  Brightness : String
  OpenState : String

structure ContactSensorEvent where
  EventType : String
  EventVersion : String
  Context : ContactSensorEventContext

structure MeterEventContext where
  DeviceType : String
  DeviceMac : String
  TimeOfSample : Int
  Temperature : Int
  Scale : String
  Humidity : Int

structure MeterEvent where
  EventType : String
  EventVersion : String
  Context : MeterEventContext

structure MeterPlusEventContext where
  DeviceType : String
  DeviceMac : String
  TimeOfSample : Int
  Temperature : Int
  Scale : String
  Humidity : Int

structure MeterPlusEvent where
  EventType : String
  EventVersion : String
  Context : MeterPlusEventContext

structure LockEventContext where
  DeviceType : String
  DeviceMac : String
  TimeOfSample : Int
  LockState : String

structure LockEvent where
  EventType : String
  EventVersion : String
  Context : LockEventContext

structure IndoorCamEventContext where
  DeviceType : String
  DeviceMac : String
  TimeOfSample : Int
  DetectionState : String

structure IndoorCamEvent where
  EventType : String
  EventVersion : String
  Context : IndoorCamEventContext

structure PanTiltCamEventContext where
  DeviceType : String
  DeviceMac : String
  TimeOfSample : Int
  DetectionState : String

structure PanTiltCamEvent where
  EventType : String
  EventVersion : String
  Context : PanTiltCamEventContext

structure ColorBulbEventContext where
  DeviceType : String
  DeviceMac : String
  TimeOfSample : Int
  PowerState : String
  Brightness : Int
  Color : String
  ColorTemperature : Int

structure ColorBulbEvent where
  EventType : String
  EventVersion : String
  Context : ColorBulbEventContext

structure StripLightEventContext where
  DeviceType : String
  DeviceMac : String
  TimeOfSample : Int
  PowerState : String
  Brightness : Int
  Color : String

structure StripLightEvent where
  EventType : String
  EventVersion : String
  Context : StripLightEventContext

structure PlugMiniJPEventContext where
  DeviceType : String
  DeviceMac : String
  TimeOfSample : Int
  PowerState : String

structure PlugMiniJPEvent where
  EventType : String
  EventVersion : String
  Context : PlugMiniJPEventContext

structure PlugMiniUSEventContext where
  DeviceType : String
  DeviceMac : String
  TimeOfSample : Int
  PowerState : String

structure PlugMiniUSEvent where
  EventType : String
  EventVersion : String
  Context : PlugMiniUSEventContext

structure SweeperEventContext where
  DeviceType : String
  DeviceMac : String
  TimeOfSample : Int
  WorkingStatus : String
  OnlineStatus : String
  Battery : Int

structure SweeperEvent where
  EventType : String
  EventVersion : String
  Context : SweeperEventContext

structure CeilingEventContext where
  DeviceType : String
  DeviceMac : String
  TimeOfSample : Int
  PowerState : String
  Brightness : Int
  ColorTemperature : Int

structure CeilingEvent where
  EventType : String
  EventVersion : String
  Context : CeilingEventContext

structure KeypadEventContext where
  DeviceType : String
  DeviceMac : String
  TimeOfSample : Int
  EventName : String
  CommandID : String
  Result : String

structure KeypadEvent where
  EventType : String
  EventVersion : String
  Context : KeypadEventContext

/-- The closed union of typed webhook events `ParseWebhookRequest` can
produce (the Go function returns them behind `interface{}`). -/
inductive WebhookEvent where
  | motionSensor (e : MotionSensorEvent)
  | contactSensor (e : ContactSensorEvent)
  | lock (e : LockEvent)
  | indoorCam (e : IndoorCamEvent)
  | panTiltCam (e : PanTiltCamEvent)
  | colorBulb (e : ColorBulbEvent)
  | stripLight (e : StripLightEvent)
  | plugMiniUS (e : PlugMiniUSEvent)
  | plugMiniJP (e : PlugMiniJPEvent)
  | meter (e : MeterEvent)
  | meterPlus (e : MeterPlusEvent)
  | sweeper (e : SweeperEvent)
  | ceiling (e : CeilingEvent)
  | keypad (e : KeypadEvent)

/-- `encoding/json` unmarshalling of a JSON value into a Go struct: an
object exposes its fields, `null` is a no-op (all fields keep their
zero values, like an empty object), anything else is a type error. -/
def getObjFields (j : Json) : Except String (List (String × Json)) :=
  match j with
  | .obj fields => .ok fields
  | .null => .ok []
  | _ => .error "json: cannot unmarshal into Go value of type struct"

/-- A `string` struct field: absent or `null` leaves the zero value. -/
def getStringField (fields : List (String × Json)) (key : String) : Except String String :=
  match lookupField fields key with
  | none => .ok ""
  | some j => jsonUnmarshalString j ""

/-- An `int`/`int64` struct field: absent or `null` leaves the zero value. -/
def getIntField (fields : List (String × Json)) (key : String) : Except String Int :=
  match lookupField fields key with
  | none => .ok 0
  | some j => jsonUnmarshalInt j 0

/-- The nested `context` struct field: absent leaves the zero-valued
struct (same field set as an empty object). -/
def getContextFields (fields : List (String × Json)) : Except String (List (String × Json)) :=
  match lookupField fields "context" with
  | none => .ok []
  | some j => getObjFields j

/-- Decode a `MotionSensorEvent` from the (replayed) body. -/
def decodeMotionSensorEvent (body : Json) : Except String MotionSensorEvent := do
  let fields ← getObjFields body
  let eventType ← getStringField fields "eventType"
  let eventVersion ← getStringField fields "eventVersion"
  let ctx ← getContextFields fields
  let deviceType ← getStringField ctx "deviceType"
  let deviceMac ← getStringField ctx "deviceMac"
  let timeOfSample ← getIntField ctx "timeOfSample"
  let detectionState ← getStringField ctx "detectionState"
  return ⟨eventType, eventVersion, ⟨deviceType, deviceMac, timeOfSample, detectionState⟩⟩

/-- Decode a `ContactSensorEvent` from the (replayed) body. -/
def decodeContactSensorEvent (body : Json) : Except String ContactSensorEvent := do
  let fields ← getObjFields body
  let eventType ← getStringField fields "eventType"
  let eventVersion ← getStringField fields "eventVersion"
  let ctx ← getContextFields fields
  let deviceType ← getStringField ctx "deviceType"
  let deviceMac ← getStringField ctx "deviceMac"
  let timeOfSample ← getIntField ctx "timeOfSample"
  let detectionState ← getStringField ctx "detectionState"
  let doorMode ← getStringField ctx "doorMode"
  let brightness ← getStringField ctx "brightness"
  let openState ← getStringField ctx "openState"
  return ⟨eventType, eventVersion,
    ⟨deviceType, deviceMac, timeOfSample, detectionState, doorMode, brightness, openState⟩⟩

/-- Decode a `MeterEvent` from the (replayed) body. -/
def decodeMeterEvent (body : Json) : Except String MeterEvent := do
  let fields ← getObjFields body
  let eventType ← getStringField fields "eventType"
  let eventVersion ← getStringField fields "eventVersion"
  let ctx ← getContextFields fields
  let deviceType ← getStringField ctx "deviceType"
  let deviceMac ← getStringField ctx "deviceMac"
  let timeOfSample ← getIntField ctx "timeOfSample"
  let temperature ← getIntField ctx "temperature"
  let scale ← getStringField ctx "scale"
  let humidity ← getIntField ctx "humidity"
  return ⟨eventType, eventVersion,
    ⟨deviceType, deviceMac, timeOfSample, temperature, scale, humidity⟩⟩

/-- Decode a `MeterPlusEvent` from the (replayed) body. -/
def decodeMeterPlusEvent (body : Json) : Except String MeterPlusEvent := do
  let fields ← getObjFields body
  let eventType ← getStringField fields "eventType"
  let eventVersion ← getStringField fields "eventVersion"
  let ctx ← getContextFields fields
  let deviceType ← getStringField ctx "deviceType"
  let deviceMac ← getStringField ctx "deviceMac"
  let timeOfSample ← getIntField ctx "timeOfSample"
  let temperature ← getIntField ctx "temperature"
  let scale ← getStringField ctx "scale"
  let humidity ← getIntField ctx "humidity"
  return ⟨eventType, eventVersion,
    ⟨deviceType, deviceMac, timeOfSample, temperature, scale, humidity⟩⟩

/-- Decode a `LockEvent` from the (replayed) body. -/
def decodeLockEvent (body : Json) : Except String LockEvent := do
  let fields ← getObjFields body
  let eventType ← getStringField fields "eventType"
  let eventVersion ← getStringField fields "eventVersion"
  let ctx ← getContextFields fields
  let deviceType ← getStringField ctx "deviceType"
  let deviceMac ← getStringField ctx "deviceMac"
  let timeOfSample ← getIntField ctx "timeOfSample"
  let lockState ← getStringField ctx "lockState"
  return ⟨eventType, eventVersion, ⟨deviceType, deviceMac, timeOfSample, lockState⟩⟩

/-- Decode an `IndoorCamEvent` from the (replayed) body. -/
def decodeIndoorCamEvent (body : Json) : Except String IndoorCamEvent := do
  let fields ← getObjFields body
  let eventType ← getStringField fields "eventType"
  let eventVersion ← getStringField fields "eventVersion"
  let ctx ← getContextFields fields
  let deviceType ← getStringField ctx "deviceType"
  let deviceMac ← getStringField ctx "deviceMac"
  let timeOfSample ← getIntField ctx "timeOfSample"
  let detectionState ← getStringField ctx "detectionState"
  return ⟨eventType, eventVersion, ⟨deviceType, deviceMac, timeOfSample, detectionState⟩⟩

/-- Decode a `PanTiltCamEvent` from the (replayed) body. -/
def decodePanTiltCamEvent (body : Json) : Except String PanTiltCamEvent := do
  let fields ← getObjFields body
  let eventType ← getStringField fields "eventType"
  let eventVersion ← getStringField fields "eventVersion"
  let ctx ← getContextFields fields
  let deviceType ← getStringField ctx "deviceType"
  let deviceMac ← getStringField ctx "deviceMac"
  let timeOfSample ← getIntField ctx "timeOfSample"
  let detectionState ← getStringField ctx "detectionState"
  return ⟨eventType, eventVersion, ⟨deviceType, deviceMac, timeOfSample, detectionState⟩⟩

/-- Decode a `ColorBulbEvent` from the (replayed) body. -/
def decodeColorBulbEvent (body : Json) : Except String ColorBulbEvent := do
  let fields ← getObjFields body
  let eventType ← getStringField fields "eventType"
  let eventVersion ← getStringField fields "eventVersion"
  let ctx ← getContextFields fields
  let deviceType ← getStringField ctx "deviceType"
  let deviceMac ← getStringField ctx "deviceMac"
  let timeOfSample ← getIntField ctx "timeOfSample"
  let powerState ← getStringField ctx "powerState"
  let brightness ← getIntField ctx "brightness"
  let color ← getStringField ctx "color"
  let colorTemperature ← getIntField ctx "colorTemperature"
  return ⟨eventType, eventVersion,
    ⟨deviceType, deviceMac, timeOfSample, powerState, brightness, color, colorTemperature⟩⟩

/-- Decode a `StripLightEvent` from the (replayed) body. -/
def decodeStripLightEvent (body : Json) : Except String StripLightEvent := do
  let fields ← getObjFields body
  let eventType ← getStringField fields "eventType"
  let eventVersion ← getStringField fields "eventVersion"
  let ctx ← getContextFields fields
  let deviceType ← getStringField ctx "deviceType"
  let deviceMac ← getStringField ctx "deviceMac"
  let timeOfSample ← getIntField ctx "timeOfSample"
  let powerState ← getStringField ctx "powerState"
  let brightness ← getIntField ctx "brightness"
  let color ← getStringField ctx "color"
  return ⟨eventType, eventVersion,
    ⟨deviceType, deviceMac, timeOfSample, powerState, brightness, color⟩⟩

/-- Decode a `PlugMiniUSEvent` from the (replayed) body. -/
def decodePlugMiniUSEvent (body : Json) : Except String PlugMiniUSEvent := do
  let fields ← getObjFields body
  let eventType ← getStringField fields "eventType"
  let eventVersion ← getStringField fields "eventVersion"
  let ctx ← getContextFields fields
  let deviceType ← getStringField ctx "deviceType"
  let deviceMac ← getStringField ctx "deviceMac"
  let timeOfSample ← getIntField ctx "timeOfSample"
  let powerState ← getStringField ctx "powerState"
  return ⟨eventType, eventVersion, ⟨deviceType, deviceMac, timeOfSample, powerState⟩⟩

/-- Decode a `PlugMiniJPEvent` from the (replayed) body. -/
def decodePlugMiniJPEvent (body : Json) : Except String PlugMiniJPEvent := do
  let fields ← getObjFields body
  let eventType ← getStringField fields "eventType"
  let eventVersion ← getStringField fields "eventVersion"
  let ctx ← getContextFields fields
  let deviceType ← getStringField ctx "deviceType"
  let deviceMac ← getStringField ctx "deviceMac"
  let timeOfSample ← getIntField ctx "timeOfSample"
  let powerState ← getStringField ctx "powerState"
  return ⟨eventType, eventVersion, ⟨deviceType, deviceMac, timeOfSample, powerState⟩⟩

/-- Decode a `SweeperEvent` from the (replayed) body. -/
def decodeSweeperEvent (body : Json) : Except String SweeperEvent := do
  let fields ← getObjFields body
  let eventType ← getStringField fields "eventType"
  let eventVersion ← getStringField fields "eventVersion"
  let ctx ← getContextFields fields
  let deviceType ← getStringField ctx "deviceType"
  let deviceMac ← getStringField ctx "deviceMac"
  let timeOfSample ← getIntField ctx "timeOfSample"
  let workingStatus ← getStringField ctx "workingStatus"
  let onlineStatus ← getStringField ctx "onlineStatus"
  let battery ← getIntField ctx "battery"
  return ⟨eventType, eventVersion,
    ⟨deviceType, deviceMac, timeOfSample, workingStatus, onlineStatus, battery⟩⟩

/-- Decode a `CeilingEvent` from the (replayed) body. -/
def decodeCeilingEvent (body : Json) : Except String CeilingEvent := do
  let fields ← getObjFields body
  let eventType ← getStringField fields "eventType"
  let eventVersion ← getStringField fields "eventVersion"
  let ctx ← getContextFields fields
  let deviceType ← getStringField ctx "deviceType"
  let deviceMac ← getStringField ctx "deviceMac"
  let timeOfSample ← getIntField ctx "timeOfSample"
  let powerState ← getStringField ctx "powerState"
  let brightness ← getIntField ctx "brightness"
  let colorTemperature ← getIntField ctx "colorTemperature"
  return ⟨eventType, eventVersion,
    ⟨deviceType, deviceMac, timeOfSample, powerState, brightness, colorTemperature⟩⟩

/-- Decode a `KeypadEvent` from the (replayed) body. -/
def decodeKeypadEvent (body : Json) : Except String KeypadEvent := do
  let fields ← getObjFields body
  let eventType ← getStringField fields "eventType"
  let eventVersion ← getStringField fields "eventVersion"
  let ctx ← getContextFields fields
  let deviceType ← getStringField ctx "deviceType"
  let deviceMac ← getStringField ctx "deviceMac"
  let timeOfSample ← getIntField ctx "timeOfSample"
  let eventName ← getStringField ctx "eventName"
  let commandID ← getStringField ctx "commandId"
  let result ← getStringField ctx "result"
  return ⟨eventType, eventVersion,
    ⟨deviceType, deviceMac, timeOfSample, eventName, commandID, result⟩⟩

/-- `deviceTypeFromWebhookRequest` (webhook.go): decode only
`context.deviceType` from the buffered body.  Absent `context` or
`deviceType` yields the zero value `""`; a present field of the wrong
JSON type is a decode error. -/
def deviceTypeFromWebhookRequest (body : Json) : Except String String := do
  let fields ← getObjFields body
  let ctx ← getContextFields fields
  getStringField ctx "deviceType"

/-- The discriminator tokens `ParseWebhookRequest` recognizes. -/
def knownWebhookDeviceTypes : List String :=
  ["WoPresence", "WoContact", "WoLock", "WoCamera", "WoPanTiltCam",
   "WoBulb", "WoStrip", "WoPlugUS", "WoPlugJP", "WoMeter", "WoMeterPlus",
   "WoSweeper", "WoSweeperPlus", "WoCeiling", "WoCeilingPro",
   "WoKeypad", "WoKeypadTouch"]

/-- `ParseWebhookRequest` (webhook.go): peek `context.deviceType`,
then dispatch on the token -- exact, case-sensitive comparison, with
several tokens sharing one decoder -- and decode the full typed event
from the replayed body; an unrecognized token is the
`unknown device type` error. -/
def ParseWebhookRequest (body : Json) : Except String WebhookEvent :=
  match deviceTypeFromWebhookRequest body with
  | .error e => .error e
  | .ok deviceType =>
    if deviceType = "WoPresence" then
      (decodeMotionSensorEvent body).map WebhookEvent.motionSensor
    else if deviceType = "WoContact" then
      (decodeContactSensorEvent body).map WebhookEvent.contactSensor
    else if deviceType = "WoLock" then
      (decodeLockEvent body).map WebhookEvent.lock
    else if deviceType = "WoCamera" then
      (decodeIndoorCamEvent body).map WebhookEvent.indoorCam
    else if deviceType = "WoPanTiltCam" then
      (decodePanTiltCamEvent body).map WebhookEvent.panTiltCam
    else if deviceType = "WoBulb" then
      (decodeColorBulbEvent body).map WebhookEvent.colorBulb
    else if deviceType = "WoStrip" then
      (decodeStripLightEvent body).map WebhookEvent.stripLight
    else if deviceType = "WoPlugUS" then
      (decodePlugMiniUSEvent body).map WebhookEvent.plugMiniUS
    else if deviceType = "WoPlugJP" then
      (decodePlugMiniJPEvent body).map WebhookEvent.plugMiniJP
    else if deviceType = "WoMeter" then
      (decodeMeterEvent body).map WebhookEvent.meter
    else if deviceType = "WoMeterPlus" then
      (decodeMeterPlusEvent body).map WebhookEvent.meterPlus
    else if deviceType = "WoSweeper" ∨ deviceType = "WoSweeperPlus" then
      (decodeSweeperEvent body).map WebhookEvent.sweeper
    else if deviceType = "WoCeiling" ∨ deviceType = "WoCeilingPro" then
      (decodeCeilingEvent body).map WebhookEvent.ceiling
    else if deviceType = "WoKeypad" ∨ deviceType = "WoKeypadTouch" then
      (decodeKeypadEvent body).map WebhookEvent.keypad
    else
      .error ("unknown device type: " ++ deviceType)

/-- Whether a fallible call succeeded (Go: returned a nil error). -/
def isOkExcept {ε α : Type} (e : Except ε α) : Bool :=
  match e with
  | .ok _ => true
  | .error _ => false

/-- A well-formed webhook body whose discriminator is the unknown token
`"WoFutureDevice"`. -/
def unknownDeviceTypeBody : Json :=
  .obj [("eventType", .str "changeReport"), ("eventVersion", .str "1"),
        ("context", .obj [("deviceType", .str "WoFutureDevice"),
                          ("deviceMac", .str "01:00:5e:90:10:00"),
                          ("timeOfSample", .num 123456789)])]

/-- A well-formed cleaner webhook body using the `"WoSweeper"` token. -/
def sweeperWebhookBody : Json :=
  .obj [("eventType", .str "changeReport"), ("eventVersion", .str "1"),
        ("context", .obj [("deviceType", .str "WoSweeper"),
                          ("deviceMac", .str "01:00:5e:90:10:00"),
                          ("workingStatus", .str "StandBy"),
                          ("onlineStatus", .str "online"),
                          ("battery", .num 100),
                          ("timeOfSample", .num 123456789)])]

/-- The same cleaner webhook body with the `"WoSweeperPlus"` token. -/
def sweeperPlusWebhookBody : Json :=
  .obj [("eventType", .str "changeReport"), ("eventVersion", .str "1"),
        ("context", .obj [("deviceType", .str "WoSweeperPlus"),
                          ("deviceMac", .str "01:00:5e:90:10:00"),
                          ("workingStatus", .str "StandBy"),
                          ("onlineStatus", .str "online"),
                          ("battery", .num 100),
                          ("timeOfSample", .num 123456789)])]

/-! ## Theorems -/

/-- C1 (amended): decoding a JSON integer `n ≥ 0` as a brightness value
and calling the numeric accessor returns `n`, while the ambient
accessor fails with the wrong-variant error; decoding a JSON string
`s ≠ ""` gives back `s` verbatim from the ambient accessor, while the
numeric accessor fails with the wrong-variant error.  (The claim's
unrestricted version fails for negative integers, which the sentinel
representation makes unreadable, and for the empty string, which the
ambient accessor treats as the missing variant.) -/
theorem brightness_roundtrip_accessors :
    (∀ n : Int, 0 ≤ n →
      BrightnessState.UnmarshalJSON (Json.num n) =
        Except.ok { intBrightness := n, ambientBrightness := "" } ∧
      BrightnessState.Int { intBrightness := n, ambientBrightness := "" } = Except.ok n ∧
      BrightnessState.AmbientBrightness { intBrightness := n, ambientBrightness := "" } =
        Except.error
          "ambient brightness value is only available for motion sensor, contact sensor devices") ∧
    (∀ s : String, s ≠ "" →
      BrightnessState.UnmarshalJSON (Json.str s) =
        Except.ok { intBrightness := -1, ambientBrightness := s } ∧
      BrightnessState.AmbientBrightness { intBrightness := -1, ambientBrightness := s } =
        Except.ok s ∧
      BrightnessState.Int { intBrightness := -1, ambientBrightness := s } =
        Except.error "integer brightness value is only available for color bulb devices") := by
  constructor
  · intro n hn
    refine ⟨rfl, ?_, ?_⟩
    · simp [BrightnessState.Int, not_lt.mpr hn]
    · simp [BrightnessState.AmbientBrightness]
  · intro s hs
    refine ⟨rfl, ?_, ?_⟩
    · simp [BrightnessState.AmbientBrightness, hs]
    · simp [BrightnessState.Int]

/-- Witness for C1 at the concrete inputs `100` and `"bright"`. -/
theorem brightness_roundtrip_accessors_witness :
    BrightnessState.Int { intBrightness := 100, ambientBrightness := "" } = Except.ok 100 ∧
    BrightnessState.AmbientBrightness { intBrightness := -1, ambientBrightness := "bright" } =
      Except.ok "bright" :=
  ⟨(brightness_roundtrip_accessors.1 100 (by decide)).2.1,
   (brightness_roundtrip_accessors.2 "bright" (by decide)).2.1⟩

/-- Counterexample for C1 as stated: decoding the JSON integer `-5`
and asking for the numeric value does not return `-5` but the
wrong-variant error, and decoding the JSON string `""` and asking for
the ambient value does not return `""` but the wrong-variant error. -/
theorem brightness_roundtrip_counterexample :
    (BrightnessState.UnmarshalJSON (Json.num (-5))).bind BrightnessState.Int =
      Except.error "integer brightness value is only available for color bulb devices" ∧
    (BrightnessState.UnmarshalJSON (Json.str "")).bind BrightnessState.AmbientBrightness =
      Except.error
        "ambient brightness value is only available for motion sensor, contact sensor devices" :=
  ⟨rfl, rfl⟩

/-- C3 (confirmed): decoding a JSON integer `n` as a `DeviceVersion`
agrees with decoding its canonical decimal string, the decoded value is
the canonical decimal string itself, and decoding the string form of an
already-decoded value is the identity (idempotence; the wire type is
not observable from the result). -/
theorem deviceVersion_int_string_agree (n : Int) :
    DeviceVersion.UnmarshalJSON (Json.num n) =
      DeviceVersion.UnmarshalJSON (Json.str (toString n)) ∧
    DeviceVersion.UnmarshalJSON (Json.num n) = Except.ok (toString n) ∧
    ∀ v : String, DeviceVersion.UnmarshalJSON (Json.num n) = Except.ok v →
      DeviceVersion.UnmarshalJSON (Json.str v) = Except.ok v := by
  refine ⟨rfl, rfl, ?_⟩
  intro v _
  rfl

/-- Witness for C3 at the concrete integer `42`. -/
theorem deviceVersion_int_string_agree_witness :
    DeviceVersion.UnmarshalJSON (Json.num 42) = DeviceVersion.UnmarshalJSON (Json.str "42") ∧
    DeviceVersion.UnmarshalJSON (Json.str "42") = Except.ok "42" :=
  ⟨(deviceVersion_int_string_agree 42).1,
   (deviceVersion_int_string_agree 42).2.2 "42"
     (by exact (deviceVersion_int_string_agree 42).2.1)⟩

/-- C4 (amended): a JSON object, array or boolean makes both the
`DeviceVersion` decoder and the brightness decoder fail with the
shape-mismatch decode error; the remaining non-integer, non-string
JSON type, `null`, instead succeeds on both decoders -- with `"0"`
resp. numeric brightness `0` -- because `encoding/json` unmarshals
`null` as a no-op into the fresh int destination of the first decode
attempt. -/
theorem decoders_reject_nonscalar_shapes :
    (∀ fields : List (String × Json),
      DeviceVersion.UnmarshalJSON (Json.obj fields) =
        Except.error "json: cannot unmarshal into Go value of type string" ∧
      BrightnessState.UnmarshalJSON (Json.obj fields) =
        Except.error
          "cannot unmarshal to both of int and string: json: cannot unmarshal into Go value of type string") ∧
    (∀ elems : List Json,
      DeviceVersion.UnmarshalJSON (Json.arr elems) =
        Except.error "json: cannot unmarshal into Go value of type string" ∧
      BrightnessState.UnmarshalJSON (Json.arr elems) =
        Except.error
          "cannot unmarshal to both of int and string: json: cannot unmarshal into Go value of type string") ∧
    (∀ b : Bool,
      DeviceVersion.UnmarshalJSON (Json.bool b) =
        Except.error "json: cannot unmarshal into Go value of type string" ∧
      BrightnessState.UnmarshalJSON (Json.bool b) =
        Except.error
          "cannot unmarshal to both of int and string: json: cannot unmarshal into Go value of type string") ∧
    (DeviceVersion.UnmarshalJSON Json.null = Except.ok "0" ∧
      BrightnessState.UnmarshalJSON Json.null =
        Except.ok { intBrightness := 0, ambientBrightness := "" }) :=
  ⟨fun _ => ⟨rfl, rfl⟩, fun _ => ⟨rfl, rfl⟩, fun _ => ⟨rfl, rfl⟩, rfl, rfl⟩

/-- Counterexample for C4 as stated: JSON `null` is neither an integer
nor a string, yet both decoders succeed on it with a type-confused
default (`"0"`, numeric brightness `0`) instead of failing. -/
theorem decoders_null_counterexample :
    DeviceVersion.UnmarshalJSON Json.null = Except.ok "0" ∧
    BrightnessState.UnmarshalJSON Json.null =
      Except.ok { intBrightness := 0, ambientBrightness := "" } :=
  ⟨rfl, rfl⟩

/-- C9 (confirmed): when the `brightness` field is absent from a
device-status body, the resulting field is the zero-valued
`BrightnessState` (internal integer `0`, not the `-1` sentinel), its
numeric accessor returns `0` with no error, and the result is
indistinguishable from decoding an actual numeric brightness `0`. -/
theorem absent_brightness_reads_as_zero :
    deviceStatusBrightnessField none =
      Except.ok { intBrightness := 0, ambientBrightness := "" } ∧
    BrightnessState.Int { intBrightness := 0, ambientBrightness := "" } = Except.ok 0 ∧
    deviceStatusBrightnessField none = deviceStatusBrightnessField (some (Json.num 0)) :=
  ⟨rfl, rfl, rfl⟩

/-- C10 (confirmed): a brightness decoded from the empty JSON string
stores the string variant, yet its ambient accessor fails with the
wrong-variant error; in general the ambient accessor succeeds exactly
when the stored ambient token is non-empty. -/
theorem empty_ambient_not_readable :
    BrightnessState.UnmarshalJSON (Json.str "") =
      Except.ok { intBrightness := -1, ambientBrightness := "" } ∧
    BrightnessState.AmbientBrightness { intBrightness := -1, ambientBrightness := "" } =
      Except.error
        "ambient brightness value is only available for motion sensor, contact sensor devices" ∧
    ∀ b : BrightnessState,
      (∃ v, BrightnessState.AmbientBrightness b = Except.ok v) ↔ b.ambientBrightness ≠ "" := by
  refine ⟨rfl, rfl, ?_⟩
  intro b
  constructor
  · rintro ⟨v, hv⟩
    intro hemp
    simp [BrightnessState.AmbientBrightness, hemp] at hv
  · intro h
    exact ⟨b.ambientBrightness, by simp [BrightnessState.AmbientBrightness, h]⟩

/-- C2 (amended): the two operations do not share one mapping.
`DeviceService.Status` succeeds exactly on status code 100, maps 190 to
its desync error and every other non-100 code -- 151, 152, 160, 161 and
171 included -- to the generic unknown-code error.
`DeviceService.Command` maps 151, 152, 160, 161, 171 and 190 to their
specific errors and yields no error for every other code, unrecognized
non-100 codes included. -/
theorem statusCode_error_mapping (sc : Int) :
    (statusResponseError sc = none ↔ sc = 100) ∧
    (commandResponseError sc = none ↔
      sc ∉ ([151, 152, 160, 161, 171, 190] : List Int)) ∧
    commandResponseError 151 = some "device type error" ∧
    commandResponseError 152 = some "device not found" ∧
    commandResponseError 160 = some "command is not supported" ∧
    commandResponseError 161 = some "device is offline" ∧
    commandResponseError 171 = some "hub device is offline" ∧
    commandResponseError 190 =
      some "device internal error due to device states not synchronizeed with server or command format is invalid" ∧
    statusResponseError 190 =
      some "device internal error due to device states not synchronized with server" ∧
    (sc ≠ 100 → sc ≠ 190 →
      statusResponseError sc =
        some ("unknown error " ++ toString sc ++ " from device list API")) := by
  refine ⟨?_, ?_, rfl, rfl, rfl, rfl, rfl, rfl, rfl, ?_⟩
  · unfold statusResponseError
    split_ifs with h1 h2 <;> simp_all
  · unfold commandResponseError
    split_ifs with h1 h2 h3 h4 h5 h6 <;> simp_all
  · intro h100 h190
    simp [statusResponseError, h100, h190]

/-- Witness for C2 at the concrete status code 102: the status read
reports the generic unknown-code error there. -/
theorem statusCode_error_mapping_witness :
    statusResponseError 102 = some "unknown error 102 from device list API" := by
  exact (statusCode_error_mapping 102).2.2.2.2.2.2.2.2.2 (by decide) (by decide)

/-- Counterexample for C2 as stated: the command send yields no error
at all for the unrecognized non-100 code 102, and the status read maps
161 to the generic unknown-code error rather than the device-offline
error the shared table would demand. -/
theorem statusCode_mapping_counterexample :
    commandResponseError 102 = none ∧
    statusResponseError 161 = some "unknown error 161 from device list API" :=
  ⟨rfl, rfl⟩

/-- C7 (confirmed): the parameter rendered by `SetPosition` always has
`clamp(position, 0, 100)` as its position component (rendering is a
total function); in particular `SetPosition 1 DefaultMode 150` renders
`"1,ff,100"` and position `-5` renders `"1,ff,0"`. -/
theorem setPosition_clamps_position (index mode position : Int) :
    (SetPosition index mode position).Parameter =
      toString index ++ "," ++ setPositionModeParameter mode ++ ","
        ++ toString (clamp position 0 100) ∧
    SetPosition 1 DefaultMode 150 =
      { Command := "setPosition", Parameter := "1,ff,100", CommandType := "command" } ∧
    SetPosition 1 DefaultMode (-5) =
      { Command := "setPosition", Parameter := "1,ff,0", CommandType := "command" } := by
  refine ⟨?_, rfl, rfl⟩
  have h : (if position < 0 then (0 : Int) else if 100 < position then 100 else position) =
      clamp position 0 100 := by
    simp only [clamp, Int.max_def, Int.min_def]
    split_ifs <;> omega
  simp [SetPosition, h]

/-- C8 (amended): `CreateKeyCommand` succeeds exactly when the
password's byte length (Go's `len`) is between 6 and 12 and, for the
time-limited and disposable passcode types, neither instant is the zero
value; on success the envelope carries the key parameters marshalled as
a JSON string in its parameter field.  The claim's concrete examples
hold: a 5-byte password fails, a 6-byte one passes the check, and a
time-limited passcode with a zero start instant fails. -/
theorem createKey_preconditions (name typ password : String) (start finish : GoTime) :
    (isOkExcept (CreateKeyCommand name typ password start finish) = true ↔
      (6 ≤ password.utf8ByteSize ∧ password.utf8ByteSize ≤ 12) ∧
      ((typ = TimeLimitPasscode ∨ typ = DisposablePasscode) →
        start.IsZero = false ∧ finish.IsZero = false)) ∧
    ((6 ≤ password.utf8ByteSize ∧ password.utf8ByteSize ≤ 12) →
      ((typ = TimeLimitPasscode ∨ typ = DisposablePasscode) →
        start.IsZero = false ∧ finish.IsZero = false) →
      CreateKeyCommand name typ password start finish =
        Except.ok { Command := "createKey"
                    Parameter := jsonMarshalCreateKeyParameters
                      { Name := name, Typ := typ, Password := password
                        Start := start.Unix, End := finish.Unix }
                    CommandType := "command" }) ∧
    isOkExcept (CreateKeyCommand "name" PermanentPasscode "12345" ⟨1⟩ ⟨1⟩) = false ∧
    isOkExcept (CreateKeyCommand "name" PermanentPasscode "123456" ⟨1⟩ ⟨1⟩) = true ∧
    isOkExcept (CreateKeyCommand "name" TimeLimitPasscode "123456" ⟨0⟩ ⟨1⟩) = false := by
  refine ⟨?_, ?_, rfl, rfl, rfl⟩
  · unfold CreateKeyCommand isOkExcept GoTime.IsZero
    split_ifs with h1 h2 <;> simp_all <;> omega
  · intro hlen htyp
    unfold CreateKeyCommand
    rw [if_neg (by omega), if_neg ?_]
    rintro ⟨ht, hz⟩
    have hb := htyp ht
    unfold GoTime.IsZero at hb hz
    rcases hz with hz | hz <;> simp_all

/-- Witness for C8: a permanent passcode with the 6-byte password
`"123456"` succeeds with the marshalled parameter. -/
theorem createKey_preconditions_witness :
    CreateKeyCommand "home" PermanentPasscode "123456" ⟨0⟩ ⟨0⟩ =
      Except.ok { Command := "createKey"
                  Parameter := jsonMarshalCreateKeyParameters
                    { Name := "home", Typ := PermanentPasscode, Password := "123456"
                      Start := GoTime.Unix ⟨0⟩, End := GoTime.Unix ⟨0⟩ }
                  CommandType := "command" } :=
  (createKey_preconditions "home" PermanentPasscode "123456" ⟨0⟩ ⟨0⟩).2.1
    (by decide) (fun h => absurd h (by decide))

/-- Counterexample for C8 as stated: the Greek password `"ααααα"` has 5
characters (but 10 UTF-8 bytes), lies outside 6 to 12 characters, and
`CreateKeyCommand` nevertheless succeeds, because the source checks
Go's `len`, the byte count. -/
theorem createKey_bytes_counterexample :
    ("ααααα".length = 5) ∧ ("ααααα".utf8ByteSize = 10) ∧
    CreateKeyCommand "key" PermanentPasscode "ααααα" ⟨1⟩ ⟨1⟩ =
      Except.ok { Command := "createKey"
                  Parameter := jsonMarshalCreateKeyParameters
                    { Name := "key", Typ := "permanent", Password := "ααααα"
                      Start := -62135596799, End := -62135596799 }
                  CommandType := "command" } :=
  ⟨rfl, rfl, rfl⟩

/-- C5 (confirmed): a webhook body whose `context.deviceType`
discriminator decodes to a token outside the known set makes
`ParseWebhookRequest` return the unknown-device-type error carrying
that token -- never a zero-valued event (the model is total, so no
panic is possible). -/
theorem unknown_webhook_deviceType_errors (body : Json) (t : String)
    (hdt : deviceTypeFromWebhookRequest body = Except.ok t)
    (hunk : t ∉ knownWebhookDeviceTypes) :
    ParseWebhookRequest body = Except.error ("unknown device type: " ++ t) := by
  simp only [knownWebhookDeviceTypes, List.mem_cons, List.not_mem_nil, or_false,
    not_or] at hunk
  obtain ⟨h1, h2, h3, h4, h5, h6, h7, h8, h9, h10, h11, h12, h13, h14, h15, h16, h17⟩ := hunk
  unfold ParseWebhookRequest
  rw [hdt]
  simp [h1, h2, h3, h4, h5, h6, h7, h8, h9, h10, h11, h12, h13, h14, h15, h16, h17]

/-- Witness for C5: the token `"WoFutureDevice"` yields the
unknown-device-type error on a concrete well-formed body. -/
theorem unknown_webhook_deviceType_errors_witness :
    ParseWebhookRequest unknownDeviceTypeBody =
      Except.error ("unknown device type: " ++ "WoFutureDevice") :=
  unknown_webhook_deviceType_errors unknownDeviceTypeBody "WoFutureDevice" rfl (by decide)

/-- C6 (confirmed): the tokens `"WoSweeper"` and `"WoSweeperPlus"` both
route to the single `SweeperEvent` decoder, `"WoKeypad"` and
`"WoKeypadTouch"` both to the `KeypadEvent` decoder, and `"WoCeiling"`
and `"WoCeilingPro"` both to the `CeilingEvent` decoder; the match is
exact and case-sensitive, so the lowercase `"wosweeper"` instead hits
the unknown-device-type branch. -/
theorem webhook_many_to_one (body : Json) :
    (deviceTypeFromWebhookRequest body = Except.ok "WoSweeper" →
      ParseWebhookRequest body = (decodeSweeperEvent body).map WebhookEvent.sweeper) ∧
    (deviceTypeFromWebhookRequest body = Except.ok "WoSweeperPlus" →
      ParseWebhookRequest body = (decodeSweeperEvent body).map WebhookEvent.sweeper) ∧
    (deviceTypeFromWebhookRequest body = Except.ok "WoKeypad" →
      ParseWebhookRequest body = (decodeKeypadEvent body).map WebhookEvent.keypad) ∧
    (deviceTypeFromWebhookRequest body = Except.ok "WoKeypadTouch" →
      ParseWebhookRequest body = (decodeKeypadEvent body).map WebhookEvent.keypad) ∧
    (deviceTypeFromWebhookRequest body = Except.ok "WoCeiling" →
      ParseWebhookRequest body = (decodeCeilingEvent body).map WebhookEvent.ceiling) ∧
    (deviceTypeFromWebhookRequest body = Except.ok "WoCeilingPro" →
      ParseWebhookRequest body = (decodeCeilingEvent body).map WebhookEvent.ceiling) ∧
    (deviceTypeFromWebhookRequest body = Except.ok "wosweeper" →
      ParseWebhookRequest body = Except.error ("unknown device type: " ++ "wosweeper")) := by
  refine ⟨?_, ?_, ?_, ?_, ?_, ?_, ?_⟩ <;>
    · intro h
      unfold ParseWebhookRequest
      rw [h]
      rfl

/-- Witness for C6: the same concrete cleaner payload is decoded into a
`SweeperEvent` under both the `"WoSweeper"` and the `"WoSweeperPlus"`
discriminators. -/
theorem webhook_many_to_one_witness :
    ParseWebhookRequest sweeperWebhookBody =
      (decodeSweeperEvent sweeperWebhookBody).map WebhookEvent.sweeper ∧
    ParseWebhookRequest sweeperPlusWebhookBody =
      (decodeSweeperEvent sweeperPlusWebhookBody).map WebhookEvent.sweeper :=
  ⟨(webhook_many_to_one sweeperWebhookBody).1 rfl,
   (webhook_many_to_one sweeperPlusWebhookBody).2.1 rfl⟩

end GoSwitchbot
